import Mathlib

/-!
Shallow embedding of the Gemma instance manager
(`app/lib/gemma_manager.py`, `app/lib/endpoints/gemma_endpoints.py`).

Conventions:
* Machine-level objects (loaded model, processor) are represented by
  presence flags: `model : Bool` is `true` exactly when the Python field
  `self.model` is not `None`.
* Exceptions become `Except` / explicit error outcomes.
* Python `float` arithmetic on small integral inputs is modelled by exact
  rationals (`ℚ`); Python `int(x)` on a non-negative value is `⌊x⌋`.
* External effects (filesystem probes, the engine's `from_pretrained`,
  `.to(device)`, `generate`) are opaque: each is represented by the point
  at which it may raise, via the `InitFailure` parameter or oracle flags.
* The Python name `initialize` is a Lean keyword, so
  `GemmaInstance.initialize` is embedded as `instanceInit` and
  `GemmaManager.initialize_instance` as `init_instance`.
-/

/-- Lifecycle states of a `GemmaInstance` (`self.status` strings in the source). -/
inductive InstanceStatus where
  | loading
  | running
  | error
  | stopped
deriving DecidableEq, Repr

/-- Mutable state of one `GemmaInstance`: presence flags for the engine
handle (`self.model`) and the processor, the status string, the error
detail, and the processing / cancellation flags. -/
structure GemmaState where
  status : InstanceStatus
  model : Bool
  processor : Bool
  errorMessage : Option String
  processing : Bool
  cancelRequested : Bool
deriving DecidableEq, Repr

/-- Constructor `GemmaInstance.__init__`: status `"loading"`, `model = None`,
`processor = None`, no error, both flags clear. -/
def newInstance : GemmaState :=
  { status := .loading
    model := false
    processor := false
    errorMessage := none
    processing := false
    cancelRequested := false }

/-- Readiness test `GemmaInstance.is_ready`: status is `"running"` and both the model and
the processor are loaded (the `device` attribute is always set once running). -/
def is_ready (s : GemmaState) : Bool :=
  s.status == .running && s.model && s.processor

/-- The points of `GemmaInstance.initialize` at which an exception can be
raised, in source order: the local-model directory probe, the
required-files probe, `AutoProcessor.from_pretrained`,
`Gemma3nForConditionalGeneration.from_pretrained`, and the
`self.model.to(self.device)` move.  `none` means the load succeeds. -/
inductive InitFailure where
  | modelDirMissing
  | filesMissing
  | processorLoadFail
  | modelLoadFail
  | moveToDeviceFail
deriving DecidableEq, Repr

/-- Embedding of `GemmaInstance.initialize` as a state transformer indexed by the point
of failure.  Fields assigned before the failing statement keep their new
values; the `except` clause then sets `status = "error"` and stores the
message.  In particular `self.model` is assigned by `from_pretrained`
*before* the `.to(self.device)` move, so a failure of the move leaves the
handle set. -/
def instanceInit (fail : Option InitFailure) (s : GemmaState) : GemmaState :=
  match fail with
  | some .modelDirMissing =>
      { s with status := .error, errorMessage := some "Local model not found" }
  | some .filesMissing =>
      { s with status := .error, errorMessage := some "Missing required model files" }
  | some .processorLoadFail =>
      { s with status := .error, errorMessage := some "processor from_pretrained raised" }
  | some .modelLoadFail =>
      { s with processor := true,
               status := .error, errorMessage := some "model from_pretrained raised" }
  | some .moveToDeviceFail =>
      { s with processor := true, model := true,
               status := .error, errorMessage := some "model.to device raised" }
  | none =>
      { s with processor := true, model := true, status := .running }

/-- Predicate for whether `GemmaInstance.initialize` re-raises: it re-raises after recording the error, so the
caller observes failure exactly when a failure point was hit. -/
def initRaises (fail : Option InitFailure) : Bool :=
  fail.isSome

/-- Teardown `GemmaInstance.shutdown` (normal path): clears the model and processor
handles and sets status `"stopped"`. -/
def shutdown (s : GemmaState) : GemmaState :=
  { s with model := false, processor := false, status := .stopped }

/-- The registry `GemmaManager.instances`: identifier to instance state. -/
abbrev Registry := List (String × GemmaState)

/-- Dictionary lookup `self.instances[instance_id]` as used by
`GemmaManager.get_instance` (returning `none` models the `ValueError`
"Instance not found"). -/
def lookupInstance (r : Registry) (id : String) : Option GemmaState :=
  (r.find? (fun p => p.1 == id)).map Prod.snd

/-- Membership test `config.instance_id in self.instances`. -/
def containsId (r : Registry) (id : String) : Bool :=
  (lookupInstance r id).isSome

/-- Dictionary assignment `self.instances[id] = instance` (overwrites any
existing binding for `id`). -/
def setInstance (r : Registry) (id : String) (s : GemmaState) : Registry :=
  if containsId r id then
    r.map (fun p => if p.1 == id then (id, s) else p)
  else
    r ++ [(id, s)]

/-- Removal `self.instances.pop(id, None)`: removes the binding if present. -/
def removeInstance (r : Registry) (id : String) : Registry :=
  r.filter (fun p => p.1 != id)

/-- Failure kinds raised by the manager and its endpoints, following the
exceptions of the source: duplicate id on create (`ValueError` mapped to
409), unknown id (`ValueError` mapped to 404), instance not ready,
oversized or malformed image payloads, the cooperative
`asyncio.CancelledError`, and a failure inside the external engine. -/
inductive ApiError where
  | alreadyExists
  | notFound
  | notReady
  | invalidInput
  | payloadTooLarge
  | cancelled
  | engineFailure
deriving DecidableEq, Repr

/-- Outcome of a fallible call: a returned value or a raised error. -/
inductive CallResult (α : Type) where
  | ok (value : α)
  | failed (err : ApiError)
deriving DecidableEq, Repr

/-- Embedding of `GemmaManager.initialize_instance`: duplicate-id check, registration,
background `initialize` (its failure point given by `fail`), and on
failure `self.instances.pop(config.instance_id, None)` before re-raising
the load exception. -/
def init_instance (r : Registry) (id : String) (fail : Option InitFailure) :
    Registry × CallResult GemmaState :=
  if containsId r id then
    (r, .failed .alreadyExists)
  else
    let r1 := setInstance r id (instanceInit fail newInstance)
    if initRaises fail then
      (removeInstance r1 id, .failed .engineFailure)
    else
      (r1, .ok (instanceInit fail newInstance))

/-- Token budget shared by `GemmaInstance.generate_response` and
`GemmaManager._analyze_image_impl`:
`max_new_tokens = max(50, min(config.max_length - input_len, 100))`. -/
def max_new_tokens (maxLength inputLen : ℤ) : ℤ :=
  max 50 (min (maxLength - inputLen) 100)

/-- Constant `target_size = (100, 100)` in `_analyze_image_impl`. -/
def target_size : ℕ × ℕ := (100, 100)

/-- Aspect-ratio-preserving resize target of `_analyze_image_impl`:
`aspect_ratio = w / h` (Python true division, exact here); if it exceeds 1
the new size is `(100, int(100 / aspect_ratio))`, otherwise
`(int(100 * aspect_ratio), 100)`.  `int` truncates, which on these
non-negative values is the floor. -/
def resizeDims (w h : ℕ) : ℕ × ℕ :=
  let aspect_ratio : ℚ := (w : ℚ) / (h : ℚ)
  if 1 < aspect_ratio then
    (target_size.1, (⌊(target_size.1 : ℚ) / aspect_ratio⌋).toNat)
  else
    ((⌊(target_size.2 : ℚ) * aspect_ratio⌋).toNat, target_size.2)

/-- Centering offsets for the letterbox paste:
`((target_w - new_w) // 2, (target_h - new_h) // 2)`. -/
def pasteOffsets (newW newH : ℕ) : ℕ × ℕ :=
  ((target_size.1 - newW) / 2, (target_size.2 - newH) / 2)

/-- Modelled from the spec: the resize rule as the specification words it,
with the shorter side computed by rounding to nearest
(`round(100 / aspect_ratio)` or `round(100 * aspect_ratio)`) instead of
truncation.  Used only to compare the specified rule with `resizeDims`. -/
def resizeDimsRoundSpec (w h : ℕ) : ℕ × ℕ :=
  let aspect_ratio : ℚ := (w : ℚ) / (h : ℚ)
  if 1 < aspect_ratio then
    (target_size.1, (round ((target_size.1 : ℚ) / aspect_ratio)).toNat)
  else
    ((round ((target_size.2 : ℚ) * aspect_ratio)).toNat, target_size.2)

/-- Result of a chat call: the final instance state, the returned text or
raised error, whether `self.model.generate` was reached, and the budget
passed to it. -/
structure ChatOutcome where
  finalState : GemmaState
  result : CallResult String
  engineInvoked : Bool
  tokenBudget : Option ℤ
deriving DecidableEq, Repr

/-- Embedding of `GemmaInstance.generate_response`: raises `RuntimeError`
unless `is_ready`, then under the per-instance lock tokenizes the prompt
(`inputLen` tokens), computes `max_new_tokens`, and calls
`self.model.generate`.  The source contains no cancellation checkpoint in
this path and never reads or writes `_processing` or `_cancel_processing`,
so the state is returned unchanged. -/
def generate_response (s : GemmaState) (maxLength inputLen : ℤ)
    (engineText : String) : ChatOutcome :=
  if is_ready s then
    { finalState := s
      result := .ok engineText
      engineInvoked := true
      tokenBudget := some (max_new_tokens maxLength inputLen) }
  else
    { finalState := s
      result := .failed .notReady
      engineInvoked := false
      tokenBudget := none }

/-- Constant `max_base64_size = 50 * 1024 * 1024` of `_analyze_image_impl`. -/
def max_base64_size : ℕ := 50 * 1024 * 1024

/-- Result of an image-analysis call: final instance state, the
`image_dimensions` of the response (or the raised error), whether
`instance.model.generate` was reached, the token budget passed to it, and
the size of the normalized image handed to the engine. -/
structure ImageAnalysisOutcome where
  finalState : GemmaState
  result : CallResult (ℕ × ℕ)
  engineInvoked : Bool
  tokenBudget : Option ℤ
  modelInputSize : Option (ℕ × ℕ)
deriving DecidableEq, Repr

/-- Embedding of `GemmaManager._analyze_image_impl`.  Inputs: the entry
state `s`, `encodedLen = len(image_data)`, `decoded` (the decoded image's
width x height, `none` when `Image.open` raises), the value of
`_cancel_processing` observed at each of the three cancellation
checkpoints (`c1` before decoding, `c2` after normalization, `c3`
immediately before `generate` - the flag can be set concurrently between
checkpoints), and the generation parameters.  The body sets
`_processing = True` and `_cancel_processing = False` on entry; the
`finally` clause clears both flags on every exit path, so every branch
returns `exitState`.  On success the response carries `original_size`
(captured before the resize) while the engine receives the letterboxed
`target_size` canvas holding the `resizeDims`-sized image at
`pasteOffsets`. -/
def analyze_image_impl (s : GemmaState) (encodedLen : ℕ)
    (decoded : Option (ℕ × ℕ)) (c1 c2 c3 : Bool)
    (maxLength inputLen : ℤ) : ImageAnalysisOutcome :=
  let exitState : GemmaState := { s with processing := false, cancelRequested := false }
  if max_base64_size < encodedLen then
    { finalState := exitState, result := .failed .payloadTooLarge
      engineInvoked := false, tokenBudget := none, modelInputSize := none }
  else if c1 then
    { finalState := exitState, result := .failed .cancelled
      engineInvoked := false, tokenBudget := none, modelInputSize := none }
  else
    match decoded with
    | none =>
        { finalState := exitState, result := .failed .invalidInput
          engineInvoked := false, tokenBudget := none, modelInputSize := none }
    | some (w, h) =>
        if w < 10 ∨ h < 10 then
          { finalState := exitState, result := .failed .invalidInput
            engineInvoked := false, tokenBudget := none, modelInputSize := none }
        else
          let original_size := (w, h)
          if c2 then
            { finalState := exitState, result := .failed .cancelled
              engineInvoked := false, tokenBudget := none, modelInputSize := none }
          else if c3 then
            { finalState := exitState, result := .failed .cancelled
              engineInvoked := false, tokenBudget := none, modelInputSize := none }
          else
            { finalState := exitState
              result := .ok original_size
              engineInvoked := true
              tokenBudget := some (max_new_tokens maxLength inputLen)
              modelInputSize := some target_size }

/-- Embedding of `GemmaManager.analyze_image`: `get_instance` lookup is
assumed resolved; the wrapper rejects with a `ValueError` unless
`is_ready`, then delegates to `_analyze_image_impl`. -/
def analyze_image (s : GemmaState) (encodedLen : ℕ)
    (decoded : Option (ℕ × ℕ)) (c1 c2 c3 : Bool)
    (maxLength inputLen : ℤ) : ImageAnalysisOutcome :=
  if is_ready s then
    analyze_image_impl s encodedLen decoded c1 c2 c3 maxLength inputLen
  else
    { finalState := s, result := .failed .notReady
      engineInvoked := false, tokenBudget := none, modelInputSize := none }

/-- Embedding of `GemmaManager._analyze_pil_image_impl` (the call shape
behind the multipart endpoint): no size limit, no decode step and no
normalization - the PIL image of size `dims` is handed to the engine at
its own size; the cancellation flag is observed at two checkpoints
(`c1` before the RGB conversion, `c2` immediately before `generate`);
the generate call uses the fixed `max_new_tokens=100` of the HuggingFace
example, ignoring `config.max_length` and the tokenized input length
(hence the unused final parameters); the `finally` clause clears both
flags on every exit path. -/
def analyze_pil_image_impl (s : GemmaState) (dims : ℕ × ℕ) (c1 c2 : Bool)
    (_maxLength _inputLen : ℤ) : ImageAnalysisOutcome :=
  let exitState : GemmaState := { s with processing := false, cancelRequested := false }
  if c1 then
    { finalState := exitState, result := .failed .cancelled
      engineInvoked := false, tokenBudget := none, modelInputSize := none }
  else if c2 then
    { finalState := exitState, result := .failed .cancelled
      engineInvoked := false, tokenBudget := none, modelInputSize := none }
  else
    { finalState := exitState
      result := .ok dims
      engineInvoked := true
      tokenBudget := some 100
      modelInputSize := some dims }

/-- Inputs of `handle_get_device_capabilities`: what `torch.cuda`
reports - availability, device count, and the capability tuple
`(major, minor)` returned by `torch.cuda.get_device_capability()`. -/
structure DeviceQuery where
  cuda_available : Bool
  device_count : ℕ
  capability_major : ℕ
  capability_minor : ℕ
deriving DecidableEq, Repr

/-- Computation `capability_version = major + (minor / 10)` from
`handle_get_device_capabilities` (exact here). -/
def capability_version (q : DeviceQuery) : ℚ :=
  (q.capability_major : ℚ) + (q.capability_minor : ℚ) / 10

/-- Fields of the capabilities dictionary returned by
`handle_get_device_capabilities` that the claims are about. -/
structure DeviceCapabilities where
  cuda_available : Bool
  cpu_available : Bool
  cuda_compatible : Bool
  bfloat16_supported : Bool
  incompatibility_reason : Option String
  recommended_device : String
deriving DecidableEq, Repr

/-- Embedding of `handle_get_device_capabilities` (non-throwing path):
when an accelerator is reported (`cuda_available` and a positive device
count) it derives `cuda_compatible = (capability_version >= 7.0)` and
`bfloat16_supported = (capability_version >= 8.0)`, populates
`incompatibility_reason` when either check fails, and recommends
`"cuda"` exactly when `cuda_available and cuda_compatible`; otherwise all
compatibility fields keep their `False`/`None` initial values and the
recommendation falls through to `"cpu"`. -/
def handle_get_device_capabilities (q : DeviceQuery) : DeviceCapabilities :=
  if q.cuda_available = true ∧ 0 < q.device_count then
    let cuda_compatible : Bool := decide ((7 : ℚ) ≤ capability_version q)
    let bfloat16_supported : Bool := decide ((8 : ℚ) ≤ capability_version q)
    let incompatibility_reason : Option String :=
      if cuda_compatible = false then
        some "CUDA capability is too old. Requires at least 7.0 for triton GPU compiler support."
      else if bfloat16_supported = false then
        some "CUDA capability does not support native bfloat16. Requires at least 8.0 for optimal performance."
      else
        none
    { cuda_available := q.cuda_available
      cpu_available := true
      cuda_compatible := cuda_compatible
      bfloat16_supported := bfloat16_supported
      incompatibility_reason := incompatibility_reason
      recommended_device := if q.cuda_available && cuda_compatible then "cuda" else "cpu" }
  else
    { cuda_available := q.cuda_available
      cpu_available := true
      cuda_compatible := false
      bfloat16_supported := false
      incompatibility_reason := none
      recommended_device := if q.cuda_available && false then "cuda" else "cpu" }

/-- Query reporting one accelerator of capability 6.1 (for instance a
GTX 1060). -/
def query61 : DeviceQuery :=
  { cuda_available := true, device_count := 1
    capability_major := 6, capability_minor := 1 }

/-- Query reporting one accelerator of capability 8.0. -/
def query80 : DeviceQuery :=
  { cuda_available := true, device_count := 1
    capability_major := 8, capability_minor := 0 }

/-- Synchronous create section of `initialize_instance`: the duplicate-id
membership test, the `GemmaInstance` construction, and the dictionary
insert (the insert under `self._lock`).  The function is `async def` and
this segment contains no `await`, and every endpoint handler is likewise
`async def` on the one event loop, so under CPython/asyncio cooperative
scheduling the whole segment executes atomically with respect to every
other request handler: concurrent `create` calls execute their sections
in some sequential order, never interleaved within the section. -/
def createSection (r : Registry) (id : String) : Registry × CallResult Unit :=
  if containsId r id then
    (r, .failed .alreadyExists)
  else
    (setInstance r id newInstance, .ok ())

/-- Run of `n` concurrent callers of `initialize_instance` racing on the
same identifier: an asyncio execution runs their atomic create sections
in some sequential order (the callers are symmetric, so one fixed order
represents all of them), collecting each caller's outcome in order. -/
def runCreateCallers (r : Registry) (id : String) : ℕ → Registry × List (CallResult Unit)
  | 0 => (r, [])
  | n + 1 =>
      let first := createSection r id
      let rest := runCreateCallers first.1 id n
      (rest.1, first.2 :: rest.2)

lemma floor_div_toNat (a b : ℕ) : (⌊((a : ℚ)) / ((b : ℚ))⌋).toNat = a / b := by
  rw [Rat.floor_natCast_div_natCast, ← Int.natCast_div, Int.toNat_natCast]

lemma resizeDims_wide (w h : ℕ) (hh : 0 < h) (hlt : h < w) :
    resizeDims w h = (100, 100 * h / w) := by
  have hcond : (1 : ℚ) < (w : ℚ) / (h : ℚ) := by
    rw [lt_div_iff₀ (by exact_mod_cast hh), one_mul]
    exact_mod_cast hlt
  unfold resizeDims target_size
  rw [if_pos hcond]
  have heq : (((100, 100) : ℕ × ℕ).1 : ℚ) / ((w : ℚ) / (h : ℚ))
      = ((100 * h : ℕ) : ℚ) / ((w : ℕ) : ℚ) := by
    push_cast
    rw [div_div_eq_mul_div]
  rw [heq, floor_div_toNat]

lemma resizeDims_tall (w h : ℕ) (hh : 0 < h) (hle : w ≤ h) :
    resizeDims w h = (100 * w / h, 100) := by
  have hcond : ¬ (1 : ℚ) < (w : ℚ) / (h : ℚ) := by
    rw [not_lt, div_le_one (by exact_mod_cast hh)]
    exact_mod_cast hle
  unfold resizeDims target_size
  rw [if_neg hcond]
  have heq : (((100, 100) : ℕ × ℕ).2 : ℚ) * ((w : ℚ) / (h : ℚ))
      = ((100 * w : ℕ) : ℚ) / ((h : ℕ) : ℚ) := by
    push_cast
    ring
  rw [heq, floor_div_toNat]

/-- Ready instance whose cancellation flag has been set (for instance by
`cancel_processing`) before a call is dispatched to it. -/
def readyCancelled : GemmaState :=
  { status := .running
    model := true
    processor := true
    errorMessage := none
    processing := false
    cancelRequested := true }

lemma lookup_remove (r : Registry) (id : String) :
    lookupInstance (removeInstance r id) id = none := by
  have h : (removeInstance r id).find? (fun p => p.1 == id) = none := by
    rw [List.find?_eq_none]
    intro p hp
    have hmem := List.mem_filter.mp hp
    simpa using hmem.2
  unfold lookupInstance
  rw [h]
  rfl

lemma find?_none_of_free (r : Registry) (id : String)
    (hfree : containsId r id = false) :
    r.find? (fun p => p.1 == id) = none := by
  unfold containsId lookupInstance at hfree
  cases hfind : r.find? (fun p => p.1 == id) with
  | none => rfl
  | some v =>
    rw [hfind] at hfree
    simp at hfree

lemma lookup_map_set (r : Registry) (id : String) (s : GemmaState) :
    containsId r id = true →
    lookupInstance (r.map (fun p => if p.1 == id then (id, s) else p)) id = some s := by
  induction r with
  | nil =>
    intro hc
    simp [containsId, lookupInstance] at hc
  | cons p r ih =>
    intro hc
    unfold lookupInstance
    rw [List.map_cons]
    by_cases hp : (p.1 == id) = true
    · rw [if_pos hp, List.find?_cons_of_pos _ (by simp)]
      rfl
    · rw [if_neg hp, List.find?_cons_of_neg _ (by simpa using hp)]
      apply ih
      unfold containsId lookupInstance at hc
      rw [List.find?_cons_of_neg _ (by simpa using hp)] at hc
      exact hc

lemma lookup_append_single (r : Registry) (id : String) (s : GemmaState)
    (hfree : containsId r id = false) :
    lookupInstance (r ++ [(id, s)]) id = some s := by
  unfold lookupInstance
  rw [List.find?_append, find?_none_of_free r id hfree]
  simp

lemma lookup_set (r : Registry) (id : String) (s : GemmaState) :
    lookupInstance (setInstance r id s) id = some s := by
  unfold setInstance
  by_cases hc : containsId r id = true
  · rw [if_pos hc]
    exact lookup_map_set r id s hc
  · rw [if_neg hc]
    exact lookup_append_single r id s (by simpa using hc)

lemma containsId_set (r : Registry) (id : String) (s : GemmaState) :
    containsId (setInstance r id s) id = true := by
  unfold containsId
  rw [lookup_set]
  rfl

lemma run_all_fail (r : Registry) (id : String) (n : ℕ)
    (hc : containsId r id = true) :
    runCreateCallers r id n
      = (r, List.replicate n (CallResult.failed ApiError.alreadyExists)) := by
  induction n with
  | zero => rfl
  | succ n ih =>
    unfold runCreateCallers
    rw [show createSection r id = (r, CallResult.failed ApiError.alreadyExists) from by
      unfold createSection
      rw [if_pos hc]]
    dsimp only
    rw [ih, List.replicate_succ]

lemma capability_version_le_iff (c : ℕ) (q : DeviceQuery) :
    ((c : ℚ) ≤ capability_version q) ↔
      10 * c ≤ 10 * q.capability_major + q.capability_minor := by
  unfold capability_version
  constructor
  · intro hle
    have h10 : ((10 * c : ℕ) : ℚ) ≤ ((10 * q.capability_major + q.capability_minor : ℕ) : ℚ) := by
      push_cast
      linarith
    exact_mod_cast h10
  · intro hle
    have h10 : ((10 * c : ℕ) : ℚ) ≤ ((10 * q.capability_major + q.capability_minor : ℕ) : ℚ) := by
      exact_mod_cast hle
    push_cast at h10
    linarith

lemma recommended_device_eq (q : DeviceQuery) :
    (handle_get_device_capabilities q).recommended_device =
      if q.cuda_available = true ∧ 0 < q.device_count ∧ (7 : ℚ) ≤ capability_version q
      then "cuda" else "cpu" := by
  unfold handle_get_device_capabilities
  by_cases hp : q.cuda_available = true ∧ 0 < q.device_count
  · rw [if_pos hp]
    by_cases h7 : (7 : ℚ) ≤ capability_version q
    · simp [hp.1, hp.2, h7]
    · simp [hp.1, hp.2, h7]
  · rw [if_neg hp]
    have : ¬ (q.cuda_available = true ∧ 0 < q.device_count ∧ (7 : ℚ) ≤ capability_version q) := by
      intro hc
      exact hp ⟨hc.1, hc.2.1⟩
    simp [this]

/-- C1 counterexample: initializing instance "alpha" into an empty
registry with a failing load leaves the registry empty, so a lookup of
the identifier does NOT return an Error-state Instance - it finds
nothing.  This refutes the claim that a failed initialization leaves the
Instance registered. -/
theorem C1_counterexample :
    lookupInstance (init_instance [] "alpha" (some InitFailure.modelDirMissing)).1 "alpha"
        = none ∧
    (init_instance [] "alpha" (some InitFailure.modelDirMissing)).2
        = CallResult.failed ApiError.engineFailure := by
  decide

/-- C1 (amended): when asynchronous model load fails during
`initialize_instance`, the Instance object is recorded in Error state
with a non-null failure detail, but it IS removed from the Registry
(`self.instances.pop` in the except clause): a subsequent lookup of the
identifier returns nothing. -/
theorem C1_failed_init_removed (r : Registry) (id : String) (f : InitFailure)
    (hfree : containsId r id = false) :
    lookupInstance (init_instance r id (some f)).1 id = none ∧
    (instanceInit (some f) newInstance).status = InstanceStatus.error ∧
    (instanceInit (some f) newInstance).errorMessage ≠ none := by
  refine ⟨?_, by cases f <;> rfl, by cases f <;> simp [instanceInit, newInstance]⟩
  unfold init_instance
  rw [if_neg (by simp [hfree])]
  simp only [initRaises, Option.isSome_some, if_true]
  exact lookup_remove _ _

/-- C1 witness: concrete run of the amended statement on an empty
registry with a failing model load. -/
theorem C1_witness :
    lookupInstance (init_instance [] "beta" (some InitFailure.modelLoadFail)).1 "beta" = none ∧
    (instanceInit (some InitFailure.modelLoadFail) newInstance).status = InstanceStatus.error ∧
    (instanceInit (some InitFailure.modelLoadFail) newInstance).errorMessage ≠ none :=
  C1_failed_init_removed [] "beta" InitFailure.modelLoadFail (by decide)

/-- C2: of N callers concurrently invoking create with the same free
identifier, exactly the first scheduled one succeeds - inserting the new
Loading-state Instance - and the other N-1 fail with AlreadyExists; two
calls never both succeed.  The atomicity comes from the event loop: the
check-and-insert section contains no await, so concurrent handlers
execute it in some sequential order. -/
theorem C2_create_exactly_one_wins (r : Registry) (id : String) (n : ℕ)
    (hfree : containsId r id = false) :
    (runCreateCallers r id (n + 1)).2
        = CallResult.ok () :: List.replicate n (CallResult.failed ApiError.alreadyExists) ∧
    (runCreateCallers r id (n + 1)).2.count (CallResult.ok ()) = 1 ∧
    lookupInstance (runCreateCallers r id (n + 1)).1 id = some newInstance ∧
    newInstance.status = InstanceStatus.loading := by
  have hsec : createSection r id = (setInstance r id newInstance, CallResult.ok ()) := by
    unfold createSection
    rw [if_neg (by simp [hfree])]
  have hrun : runCreateCallers r id (n + 1)
      = (setInstance r id newInstance,
          CallResult.ok () :: List.replicate n (CallResult.failed ApiError.alreadyExists)) := by
    unfold runCreateCallers
    rw [hsec]
    dsimp only
    rw [run_all_fail (setInstance r id newInstance) id n
      (containsId_set r id newInstance)]
  rw [hrun]
  refine ⟨rfl, ?_, lookup_set r id newInstance, rfl⟩
  rw [List.count_cons, List.count_replicate]
  simp

/-- C2 witness: three concurrent creates of "alpha" on an empty registry,
evaluated through the theorem. -/
theorem C2_witness :
    (runCreateCallers [] "alpha" 3).2
        = CallResult.ok () :: List.replicate 2 (CallResult.failed ApiError.alreadyExists) ∧
    (runCreateCallers [] "alpha" 3).2.count (CallResult.ok ()) = 1 ∧
    lookupInstance (runCreateCallers [] "alpha" 3).1 "alpha" = some newInstance ∧
    newInstance.status = InstanceStatus.loading :=
  C2_create_exactly_one_wins [] "alpha" 2 (by decide)

/-- C3 counterexample: a ready instance whose cancellation flag is
already set still has the engine's generate entry point invoked by the
text-chat path, and the call does not abort with Cancelled -
`generate_response` contains no cancellation checkpoint. -/
theorem C3_counterexample :
    readyCancelled.cancelRequested = true ∧
    is_ready readyCancelled = true ∧
    (generate_response readyCancelled 100 10 "reply").engineInvoked = true ∧
    (generate_response readyCancelled 100 10 "reply").result
        ≠ CallResult.failed ApiError.cancelled := by
  decide

/-- C3 (amended): for the image-analysis call shape only, if the
cancellation flag is observed set at any checkpoint before the engine
generate call, the engine is never invoked, and when the input guards
pass the call aborts with Cancelled; the text-chat shape has no
cancellation checkpoint (see the C3 counterexample). -/
theorem C3_image_cancel_skips_engine (s : GemmaState) (len : ℕ)
    (dec : Option (ℕ × ℕ)) (c1 c2 c3 : Bool) (ml il : ℤ)
    (hset : c1 = true ∨ c2 = true ∨ c3 = true) :
    (analyze_image_impl s len dec c1 c2 c3 ml il).engineInvoked = false ∧
    (∀ w h : ℕ, len ≤ max_base64_size → dec = some (w, h) → 10 ≤ w → 10 ≤ h →
      (analyze_image_impl s len dec c1 c2 c3 ml il).result
          = CallResult.failed ApiError.cancelled) := by
  constructor
  · unfold analyze_image_impl
    rcases dec with _ | ⟨w, h⟩ <;> split_ifs <;> simp_all <;> split_ifs <;> rfl
  · intro w h hlen hdec hw hh
    subst hdec
    unfold analyze_image_impl
    have hsize : ¬ max_base64_size < len := by omega
    have hdim : ¬ (w < 10 ∨ h < 10) := by omega
    rcases hset with hc | hc | hc <;> subst hc <;> simp [hsize, hdim, ite_self]

/-- C3 witness: concrete image-analysis call with the flag observed set
at the checkpoint immediately before generation. -/
theorem C3_witness :
    (analyze_image_impl newInstance 0 (some (400, 200)) false false true 100 10).engineInvoked
        = false ∧
    (analyze_image_impl newInstance 0 (some (400, 200)) false false true 100 10).result
        = CallResult.failed ApiError.cancelled := by
  have h := C3_image_cancel_skips_engine newInstance 0 (some (400, 200)) false false true 100 10
    (Or.inr (Or.inr rfl))
  exact ⟨h.1, h.2 400 200 (by decide) rfl (by decide) (by decide)⟩

/-- C4 counterexample: when the load fails at the `.to(device)` move -
after `from_pretrained` has already assigned the engine handle - the
Loading to Error transition leaves the handle non-null while the state is
Error, refuting the handle-iff-Running invariant. -/
theorem C4_counterexample :
    (instanceInit (some InitFailure.moveToDeviceFail) newInstance).status
        = InstanceStatus.error ∧
    (instanceInit (some InitFailure.moveToDeviceFail) newInstance).model = true := by
  decide

/-- C4 (amended): the engine handle is non-null iff the state is Running
after creation, after successful initialization, after a load failure at
any point BEFORE the engine handle is assigned, and after shutdown; the
only violating transition is a load failure after the handle assignment
(the `.to(device)` move), shown in the C4 counterexample. -/
theorem C4_handle_iff_running :
    (newInstance.model = true ↔ newInstance.status = InstanceStatus.running) ∧
    (∀ s, (instanceInit none s).model = true ↔
      (instanceInit none s).status = InstanceStatus.running) ∧
    (∀ f : InitFailure, f ≠ InitFailure.moveToDeviceFail →
      ((instanceInit (some f) newInstance).model = true ↔
        (instanceInit (some f) newInstance).status = InstanceStatus.running)) ∧
    (∀ s, (shutdown s).model = true ↔ (shutdown s).status = InstanceStatus.running) := by
  refine ⟨by decide, fun s => by simp [instanceInit], fun f hf => ?_, fun s => by simp [shutdown]⟩
  cases f <;> simp_all [instanceInit, newInstance]

/-- C4 witness: the amended invariant at the model-load failure point. -/
theorem C4_witness :
    (instanceInit (some InitFailure.modelLoadFail) newInstance).model = true ↔
      (instanceInit (some InitFailure.modelLoadFail) newInstance).status
        = InstanceStatus.running :=
  C4_handle_iff_running.2.2.1 InitFailure.modelLoadFail (by decide)

/-- C5 counterexample: the PIL image-analysis path (live behind the
multipart endpoint) reaches the engine with the fixed budget 100, not
`clamp(max_length - input_len, 50, 100)`: for `max_length = 100` and 90
input tokens the clamp is 50, yet the engine receives 100 - so the
claimed budget equality does not hold for every inference call. -/
theorem C5_counterexample :
    (analyze_pil_image_impl newInstance (400, 200) false false 100 90).engineInvoked = true ∧
    (analyze_pil_image_impl newInstance (400, 200) false false 100 90).tokenBudget
        = some 100 ∧
    max_new_tokens 100 90 = 50 ∧
    (analyze_pil_image_impl newInstance (400, 200) false false 100 90).tokenBudget
        ≠ some (max_new_tokens 100 90) := by
  decide

/-- C5 (amended): the text-chat and base64 image-analysis calls pass the
engine the budget `clamp(config.max_length - input_token_length, 50,
100)` - at least 50, at most 100, equal to the difference when it lies
between, and 50 (not 10) for `max_length=100, input_token_length=90` -
while the PIL image-analysis call passes the fixed budget 100,
independent of `config.max_length` and the input length. -/
theorem C5_budget_by_path :
    (∀ ml il : ℤ, 50 ≤ max_new_tokens ml il ∧ max_new_tokens ml il ≤ 100) ∧
    (∀ ml il : ℤ, 50 ≤ ml - il → ml - il ≤ 100 → max_new_tokens ml il = ml - il) ∧
    max_new_tokens 100 90 = 50 ∧
    (∀ s ml il t, (generate_response s ml il t).engineInvoked = true →
      (generate_response s ml il t).tokenBudget = some (max_new_tokens ml il)) ∧
    (∀ s len dec c1 c2 c3 ml il,
      (analyze_image_impl s len dec c1 c2 c3 ml il).engineInvoked = true →
      (analyze_image_impl s len dec c1 c2 c3 ml il).tokenBudget
          = some (max_new_tokens ml il)) ∧
    (∀ s dims c1 c2 ml il,
      (analyze_pil_image_impl s dims c1 c2 ml il).engineInvoked = true →
      (analyze_pil_image_impl s dims c1 c2 ml il).tokenBudget = some 100) := by
  refine ⟨?_, ?_, by decide, ?_, ?_, ?_⟩
  · intro ml il
    unfold max_new_tokens
    constructor
    · exact le_max_left _ _
    · exact max_le (by norm_num) (min_le_right _ _)
  · intro ml il h1 h2
    unfold max_new_tokens
    rw [min_eq_left h2, max_eq_right h1]
  · intro s ml il t h
    unfold generate_response at h ⊢
    split_ifs at h ⊢ <;> simp_all
  · intro s len dec c1 c2 c3 ml il h
    unfold analyze_image_impl at h ⊢
    rcases dec with _ | ⟨w, hgt⟩ <;> split_ifs at h ⊢ <;> simp_all <;>
      split_ifs at h ⊢ <;> simp_all
  · intro s dims c1 c2 ml il h
    unfold analyze_pil_image_impl at h ⊢
    split_ifs at h ⊢ <;> simp_all

/-- C5 witness: concrete budgets for each path obtained through the
theorem. -/
theorem C5_budget_witness :
    max_new_tokens 100 90 = 50 ∧ 50 ≤ max_new_tokens 100 90 ∧
    max_new_tokens 160 80 = 160 - 80 ∧
    (analyze_pil_image_impl newInstance (300, 300) false false 100 90).tokenBudget
        = some 100 := by
  refine ⟨C5_budget_by_path.2.2.1, (C5_budget_by_path.1 100 90).1, ?_, ?_⟩
  · exact C5_budget_by_path.2.1 160 80 (by decide) (by decide)
  · exact C5_budget_by_path.2.2.2.2.2 newInstance (300, 300) false false 100 90 (by decide)

/-- C6 counterexample: for a 300 x 200 input the code computes the
shorter side as `int(100 / 1.5) = 66` (truncation), while the claimed
`round(100 / aspect_ratio)` gives 67; the normalizer therefore does not
implement the rounding rule the claim states. -/
theorem C6_counterexample :
    resizeDims 300 200 = (100, 66) ∧ resizeDimsRoundSpec 300 200 = (100, 67) := by
  constructor
  · rw [resizeDims_wide 300 200 (by norm_num) (by norm_num)]
  · unfold resizeDimsRoundSpec target_size
    rw [if_pos (show (1 : ℚ) < ((300 : ℕ) : ℚ) / ((200 : ℕ) : ℚ) by norm_num)]
    have h1 : ((((100, 100) : ℕ × ℕ).1 : ℕ) : ℚ) / (((300 : ℕ) : ℚ) / ((200 : ℕ) : ℚ)) + 1 / 2
        = ((403 : ℕ) : ℚ) / ((6 : ℕ) : ℚ) := by
      norm_num
    rw [round_eq, h1, Rat.floor_natCast_div_natCast]
    decide

/-- C6 (amended): for decoded images with both sides at least 10 the
normalizer scales the longer side to exactly 100 and computes the shorter
side by TRUNCATION (floor) of `100 / aspect_ratio` resp.
`100 * aspect_ratio` - that is `100*h/w` resp. `100*w/h` in integer
division - pastes at the centering offsets, and always hands the engine
the full 100 x 100 canvas; for a 400 x 200 input the resized image is
100 x 50 with paste offsets (0, 25). -/
theorem C6_normalizer :
    (∀ w h : ℕ, 10 ≤ w → 10 ≤ h →
      (h < w → resizeDims w h = (100, 100 * h / w)) ∧
      (w ≤ h → resizeDims w h = (100 * w / h, 100))) ∧
    (∀ s len dec c1 c2 c3 ml il,
      (analyze_image_impl s len dec c1 c2 c3 ml il).engineInvoked = true →
      (analyze_image_impl s len dec c1 c2 c3 ml il).modelInputSize = some (100, 100)) ∧
    resizeDims 400 200 = (100, 50) ∧
    pasteOffsets 100 50 = (0, 25) := by
  refine ⟨?_, ?_, by rw [resizeDims_wide 400 200 (by norm_num) (by norm_num)], by decide⟩
  · intro w h hw hh
    exact ⟨fun hlt => resizeDims_wide w h (by omega) hlt,
           fun hle => resizeDims_tall w h (by omega) hle⟩
  · intro s len dec c1 c2 c3 ml il hinv
    unfold analyze_image_impl at hinv ⊢
    rcases dec with _ | ⟨w, hgt⟩ <;> split_ifs at hinv ⊢ <;> simp_all [target_size] <;>
      split_ifs at hinv ⊢ <;> simp_all

/-- C6 witness: the amended resize rule at the 400 x 200 example. -/
theorem C6_witness :
    resizeDims 400 200 = (100, 100 * 200 / 400) :=
  (C6_normalizer.1 400 200 (by decide) (by decide)).1 (by decide)

/-- C7: every successful image-analysis call reports the original decoded
dimensions in the response, never the normalized 100 x 100 size. -/
theorem C7_original_dimensions (s : GemmaState) (len : ℕ) (w h : ℕ)
    (c1 c2 c3 : Bool) (ml il : ℤ) (dims : ℕ × ℕ)
    (hok : (analyze_image_impl s len (some (w, h)) c1 c2 c3 ml il).result
        = CallResult.ok dims) :
    dims = (w, h) := by
  unfold analyze_image_impl at hok
  split_ifs at hok <;> simp_all <;> split_ifs at hok <;> simp_all

/-- C7 witness: a successful 400 x 200 call reports (400, 200). -/
theorem C7_witness :
    (analyze_image_impl newInstance 0 (some (400, 200)) false false false 100 10).result
        = CallResult.ok (400, 200) ∧
    ((400 : ℕ), (200 : ℕ)) = ((400 : ℕ), (200 : ℕ)) :=
  ⟨by decide,
    C7_original_dimensions newInstance 0 400 200 false false false 100 10 (400, 200) (by decide)⟩

/-- C8 counterexample: a text-chat call on an instance whose cancellation
flag is set returns successfully with the flag STILL set -
`generate_response` neither sets nor clears the processing and
cancellation flags, so they are not cleared before the call returns. -/
theorem C8_counterexample :
    (generate_response readyCancelled 100 10 "reply").result = CallResult.ok "reply" ∧
    (generate_response readyCancelled 100 10 "reply").finalState.cancelRequested = true := by
  decide

/-- C8 (amended): every exit path of the image-analysis implementation -
success, failure, or cancellation - clears both the processing flag and
the cancellation flag (the `finally` clause); the text-chat path does not
manage these flags at all and returns the instance state unchanged. -/
theorem C8_flags_cleared :
    (∀ s len dec c1 c2 c3 ml il,
      (analyze_image_impl s len dec c1 c2 c3 ml il).finalState.processing = false ∧
      (analyze_image_impl s len dec c1 c2 c3 ml il).finalState.cancelRequested = false) ∧
    (∀ s ml il t, (generate_response s ml il t).finalState = s) := by
  constructor
  · intro s len dec c1 c2 c3 ml il
    unfold analyze_image_impl
    rcases dec with _ | ⟨w, hgt⟩ <;> split_ifs <;> simp_all <;> split_ifs <;> simp_all
  · intro s ml il t
    unfold generate_response
    split_ifs <;> rfl

/-- C9: the device capability endpoint recommends the accelerator exactly
when one is present (available with a positive device count) and its
capability version is at least 7.0, and otherwise recommends the CPU;
capability 6.1 yields `cpu` with a populated incompatibility reason and
capability 8.0 yields `cuda` with no reason. -/
theorem C9_device_negotiation :
    (∀ q : DeviceQuery,
      ((handle_get_device_capabilities q).recommended_device = "cuda" ↔
        q.cuda_available = true ∧ 0 < q.device_count ∧ (7 : ℚ) ≤ capability_version q) ∧
      ((handle_get_device_capabilities q).recommended_device = "cuda" ∨
        (handle_get_device_capabilities q).recommended_device = "cpu")) ∧
    ((handle_get_device_capabilities query61).recommended_device = "cpu" ∧
      (handle_get_device_capabilities query61).incompatibility_reason.isSome = true) ∧
    ((handle_get_device_capabilities query80).recommended_device = "cuda" ∧
      (handle_get_device_capabilities query80).incompatibility_reason = none) := by
  have h61 : ¬ (7 : ℚ) ≤ capability_version query61 := by
    norm_num [capability_version, query61]
  have h80 : (7 : ℚ) ≤ capability_version query80 := by
    norm_num [capability_version, query80]
  have h80b : (8 : ℚ) ≤ capability_version query80 := by
    norm_num [capability_version, query80]
  refine ⟨fun q => ⟨?_, ?_⟩, ⟨?_, ?_⟩, ⟨?_, ?_⟩⟩
  · rw [recommended_device_eq q]
    split_ifs with hc
    · simp [hc]
    · simp [hc]
  · rw [recommended_device_eq q]
    split_ifs <;> simp
  · rw [recommended_device_eq query61]
    rw [if_neg (by intro hc; exact h61 hc.2.2)]
  · unfold handle_get_device_capabilities
    rw [if_pos (by exact ⟨rfl, by decide⟩)]
    simp [decide_eq_false_iff_not.mpr h61]
  · rw [recommended_device_eq query80]
    rw [if_pos ⟨rfl, by decide, h80⟩]
  · unfold handle_get_device_capabilities
    rw [if_pos (by exact ⟨rfl, by decide⟩)]
    simp [decide_eq_true_eq, h80, h80b]

/-- C10: there is an input that passes every check of the image-analysis
path (encoded size within the 50 MB limit, decodable, both dimensions at
least 10) yet whose computed resize target has height 0 - for a 2000 x 10
image the truncated shorter side is `int(100 / 200) = 0`, so positive
resize dimensions are not guaranteed. -/
theorem C10_zero_resize_dimension :
    ∃ len w h : ℕ, len ≤ max_base64_size ∧ 10 ≤ w ∧ 10 ≤ h ∧
      (analyze_image_impl newInstance len (some (w, h)) false false false 100 10).result
          = CallResult.ok (w, h) ∧
      (resizeDims w h).2 = 0 := by
  refine ⟨0, 2000, 10, by decide, by decide, by decide, by decide, ?_⟩
  rw [resizeDims_wide 2000 10 (by norm_num) (by norm_num)]
